import Mathlib

/-!
Shallow embedding of the twi-scanner repository's core:
the FT4222 bridge-device state machine (src/cxx-src/ft4222.cpp) and the
SSD1306 display driver (src/cxx-src/ssd1306/ssd1306.cpp).

Native FTDI/FT4222 library calls are modelled by explicit response records
supplied as parameters; every operation returns the operation result, the
list of native hardware calls it issued, and the resulting device state.
-/

/-- Operating mode of the FT4222 device, mirroring `FTDevice::Mode`. -/
inductive Mode
  | Unknown
  | SPI_Master
  | SPI_Slave
  | I2C_Master
  | I2C_Slave
  | GPIO
deriving DecidableEq, Repr

/-- System clock rate of the FT4222 chip (`FT4222_ClockRate`). -/
inductive ClockRate
  | SYS_CLK_60
  | SYS_CLK_24
  | SYS_CLK_48
  | SYS_CLK_80
deriving DecidableEq, Repr

/-- State of `FTDevice::Impl` (ft4222.cpp lines 16-23).
`handleOpen` models `ftHandle != nullptr`. -/
structure FTState where
  handleOpen : Bool
  isFt4222 : Bool
  currentMode : Mode
  clockRate : ClockRate
  openedIndex : Nat
deriving DecidableEq, Repr

/-- Error raised by an `FTDevice` operation, classifying the exception
messages thrown in ft4222.cpp. -/
inductive FtErr
  | notOpen
  | wrongMode
  | alreadyOpen
  | deviceIO (status : Nat)
  | incomplete (written requested : Nat)
  | wrongDevice
deriving DecidableEq, Repr

/-- A native FTDI / LibFT4222 call issued to the hardware. -/
inductive HwCall
  | ftOpen (index : Nat)
  | ftOpenBySerial (serial : String)
  | ftGetDeviceInfo
  | ftClose
  | i2cWriteEx (addr flag : Nat) (data : List Nat)
  | i2cReadEx (addr flag n : Nat)
  | i2cGetStatus
  | i2cResetBus
  | spiSingleRead (n : Nat) (endTx : Bool)
  | spiSingleWrite (data : List Nat) (endTx : Bool)
  | spiSingleReadWrite (data : List Nat) (endTx : Bool)
  | chipReset
deriving DecidableEq, Repr

/-- `FTDevice::isOpen` (ft4222.cpp line 315): handle non-null and FT4222. -/
def isOpen (s : FTState) : Bool :=
  s.handleOpen && s.isFt4222

/-- `FTDevice::getDeviceMode` (ft4222.cpp line 860). -/
def getDeviceMode (s : FTState) : Mode :=
  s.currentMode

/-- `FTDevice::getClockRate` (ft4222.cpp line 812): default when unopened. -/
def getClockRate (s : FTState) : ClockRate :=
  if isOpen s = false then ClockRate.SYS_CLK_60 else s.clockRate

/-- Whether an error is one of the precondition errors
("Device not open" / wrong-mode) of §7 of the spec. -/
def isPreErr : FtErr → Bool
  | FtErr.notOpen => true
  | FtErr.wrongMode => true
  | _ => false

/-- Result triple of a device operation: outcome, native calls issued,
resulting device state. -/
abbrev OpRes (α : Type) := Except FtErr α × List HwCall × FTState

/-- Native response of `FT4222_I2CMaster_WriteEx`. -/
structure I2CWriteResp where
  status : Nat
  bytesWritten : Nat
deriving DecidableEq, Repr

/-- Native response of `FT4222_I2CMaster_ReadEx`: status code and the bytes
the hardware actually delivered into the buffer. -/
structure I2CReadResp where
  status : Nat
  delivered : List Nat
deriving DecidableEq, Repr

/-- Native response of `FT4222_I2CMaster_GetStatus`. -/
structure I2CStatusResp where
  status : Nat
  busStatus : Nat
deriving DecidableEq, Repr

/-- Native response of the SPI single-write call. -/
structure SPIWriteResp where
  status : Nat
  bytesWritten : Nat
deriving DecidableEq, Repr

/-- Native response of the SPI single-read / read-write calls. -/
structure SPIReadResp where
  status : Nat
  delivered : List Nat
deriving DecidableEq, Repr

/-- `FTDevice::i2cMasterWrite` (ft4222.cpp lines 356-392). -/
def i2cMasterWrite (s : FTState) (deviceAddress : Nat) (data : List Nat)
    (flag : Nat) (hw : I2CWriteResp) : OpRes Unit :=
  if isOpen s = false then (Except.error FtErr.notOpen, [], s)
  else if s.currentMode ≠ Mode.I2C_Master then (Except.error FtErr.wrongMode, [], s)
  else if data = [] then (Except.ok (), [], s)
  else
    let calls := [HwCall.i2cWriteEx deviceAddress flag data]
    if hw.status ≠ 0 then (Except.error (FtErr.deviceIO hw.status), calls, s)
    else if hw.bytesWritten ≠ data.length then
      (Except.error (FtErr.incomplete hw.bytesWritten data.length), calls, s)
    else (Except.ok (), calls, s)

/-- `FTDevice::i2cMasterRead` (ft4222.cpp lines 405-444).
The buffer starts as `bytesToRead` zero bytes, the hardware overwrites its
first `hw.delivered.length` bytes, and the buffer is resized to the reported
count when it differs from the request. -/
def i2cMasterRead (s : FTState) (deviceAddress bytesToRead flag : Nat)
    (hw : I2CReadResp) : OpRes (List Nat) :=
  if isOpen s = false then (Except.error FtErr.notOpen, [], s)
  else if s.currentMode ≠ Mode.I2C_Master then (Except.error FtErr.wrongMode, [], s)
  else if bytesToRead = 0 then (Except.ok [], [], s)
  else
    let calls := [HwCall.i2cReadEx deviceAddress flag bytesToRead]
    if hw.status ≠ 0 then (Except.error (FtErr.deviceIO hw.status), calls, s)
    else
      let bytesRead := hw.delivered.length
      let buffer := (hw.delivered ++ List.replicate (bytesToRead - bytesRead) 0).take bytesToRead
      let buffer := if bytesRead ≠ bytesToRead then buffer.take bytesRead else buffer
      (Except.ok buffer, calls, s)

/-- `FTDevice::i2cMasterGetStatus` (ft4222.cpp lines 453-466). -/
def i2cMasterGetStatus (s : FTState) (hw : I2CStatusResp) : OpRes Nat :=
  if isOpen s = false then (Except.error FtErr.notOpen, [], s)
  else if s.currentMode ≠ Mode.I2C_Master then (Except.error FtErr.wrongMode, [], s)
  else
    let calls := [HwCall.i2cGetStatus]
    if hw.status ≠ 0 then (Except.error (FtErr.deviceIO hw.status), calls, s)
    else (Except.ok hw.busStatus, calls, s)

/-- `FTDevice::i2cMasterResetBus` (ft4222.cpp lines 475-487). -/
def i2cMasterResetBus (s : FTState) (hwStatus : Nat) : OpRes Unit :=
  if isOpen s = false then (Except.error FtErr.notOpen, [], s)
  else if s.currentMode ≠ Mode.I2C_Master then (Except.error FtErr.wrongMode, [], s)
  else
    let calls := [HwCall.i2cResetBus]
    if hwStatus ≠ 0 then (Except.error (FtErr.deviceIO hwStatus), calls, s)
    else (Except.ok (), calls, s)

/-- `FTDevice::spiMasterSingleRead` (ft4222.cpp lines 531-558). -/
def spiMasterSingleRead (s : FTState) (bytesToRead : Nat) (endTransaction : Bool)
    (hw : SPIReadResp) : OpRes (List Nat) :=
  if isOpen s = false then (Except.error FtErr.notOpen, [], s)
  else if s.currentMode ≠ Mode.SPI_Master then (Except.error FtErr.wrongMode, [], s)
  else if bytesToRead = 0 then (Except.ok [], [], s)
  else
    let calls := [HwCall.spiSingleRead bytesToRead endTransaction]
    if hw.status ≠ 0 then (Except.error (FtErr.deviceIO hw.status), calls, s)
    else
      let bytesRead := hw.delivered.length
      let buffer := (hw.delivered ++ List.replicate (bytesToRead - bytesRead) 0).take bytesToRead
      let buffer := if bytesRead ≠ bytesToRead then buffer.take bytesRead else buffer
      (Except.ok buffer, calls, s)

/-- `FTDevice::spiMasterSingleWrite` (ft4222.cpp lines 569-596). -/
def spiMasterSingleWrite (s : FTState) (data : List Nat) (endTransaction : Bool)
    (hw : SPIWriteResp) : OpRes Unit :=
  if isOpen s = false then (Except.error FtErr.notOpen, [], s)
  else if s.currentMode ≠ Mode.SPI_Master then (Except.error FtErr.wrongMode, [], s)
  else if data = [] then (Except.ok (), [], s)
  else
    let calls := [HwCall.spiSingleWrite data endTransaction]
    if hw.status ≠ 0 then (Except.error (FtErr.deviceIO hw.status), calls, s)
    else if hw.bytesWritten ≠ data.length then
      (Except.error (FtErr.incomplete hw.bytesWritten data.length), calls, s)
    else (Except.ok (), calls, s)

/-- `FTDevice::spiMasterSingleReadWrite` (ft4222.cpp lines 608-635).
Note: unlike the other transfer calls there is no empty-payload early
return; the native call is issued even for an empty payload. -/
def spiMasterSingleReadWrite (s : FTState) (writeData : List Nat)
    (endTransaction : Bool) (hw : SPIReadResp) : OpRes (List Nat) :=
  if isOpen s = false then (Except.error FtErr.notOpen, [], s)
  else if s.currentMode ≠ Mode.SPI_Master then (Except.error FtErr.wrongMode, [], s)
  else
    let calls := [HwCall.spiSingleReadWrite writeData endTransaction]
    if hw.status ≠ 0 then (Except.error (FtErr.deviceIO hw.status), calls, s)
    else
      let n := writeData.length
      let bytes := hw.delivered.length
      let buffer := (hw.delivered ++ List.replicate (n - bytes) 0).take n
      let buffer := if bytes ≠ n then buffer.take bytes else buffer
      (Except.ok buffer, calls, s)

/-- `FTDevice::resetChip` (ft4222.cpp lines 825-834): issues
`FT4222_ChipReset` and touches no field of the in-memory state. -/
def resetChip (s : FTState) (hwStatus : Nat) : OpRes Unit :=
  if isOpen s = false then (Except.error FtErr.notOpen, [], s)
  else
    let calls := [HwCall.chipReset]
    if hwStatus ≠ 0 then (Except.error (FtErr.deviceIO hwStatus), calls, s)
    else (Except.ok (), calls, s)

/-- The three `FT_DEVICE` codes accepted as the FT4222H chip family
(ft4222.cpp lines 224-226): `FT_DEVICE_4222H_0`, `FT_DEVICE_4222H_1_2`,
`FT_DEVICE_4222H_3`. -/
def isFt4222Type (deviceType : Nat) : Bool :=
  deviceType == 8 || deviceType == 9 || deviceType == 10

/-- Native responses consumed by `FTDevice::open` / `openBySerial`:
result of the native open, result of `FT_GetDeviceInfo`, the reported
device type, and the result of `FT4222_GetVersion`. -/
structure OpenResp where
  openStatus : Nat
  devInfoStatus : Nat
  deviceType : Nat
  versionStatus : Nat
deriving DecidableEq, Repr

/-- `FTDevice::open` (ft4222.cpp lines 200-245). After the wrong-device
`FT_Close` the stale handle pointer is not nulled, so `handleOpen` stays
true there; `isFt4222` remains false, so `isOpen` is false. -/
def openDev (s : FTState) (index : Nat) (hw : OpenResp) : OpRes Unit :=
  if isOpen s = true then (Except.error FtErr.alreadyOpen, [], s)
  else
    let calls := [HwCall.ftOpen index]
    if hw.openStatus ≠ 0 then (Except.error (FtErr.deviceIO hw.openStatus), calls, s)
    else
      let s := { s with handleOpen := true }
      let calls := calls ++ [HwCall.ftGetDeviceInfo]
      if hw.devInfoStatus ≠ 0 then (Except.error (FtErr.deviceIO hw.devInfoStatus), calls, s)
      else if isFt4222Type hw.deviceType = false then
        (Except.error FtErr.wrongDevice, calls ++ [HwCall.ftClose], s)
      else
        (Except.ok (), calls, { s with isFt4222 := true, openedIndex := index })

/-- `FTDevice::openBySerial` (ft4222.cpp lines 256-273): after a
successful native `FT_OpenEx` it unconditionally marks the device as
FT4222; no device-type query and no chip-family check is performed. -/
def openBySerial (s : FTState) (serial : String) (hw : OpenResp) : OpRes Unit :=
  if isOpen s = true then (Except.error FtErr.alreadyOpen, [], s)
  else
    let calls := [HwCall.ftOpenBySerial serial]
    if hw.openStatus ≠ 0 then (Except.error (FtErr.deviceIO hw.openStatus), calls, s)
    else
      (Except.ok (), calls, { s with handleOpen := true, isFt4222 := true })

/-- Pixel color of the SSD1306 driver (`ssd1306::COLOR`). -/
inductive COLOR
  | WHITE
  | BLACK
deriving DecidableEq, Repr

/-- One I2C transaction issued by the display driver through
`FTDevice::i2cMasterWrite`: target address, transaction flag, payload
(control byte included). -/
structure Txn where
  addr : Nat
  flag : Nat
  payload : List Nat
deriving DecidableEq, Repr

/-- State of an `ssd1306` object (ssd1306.h): 1024-byte framebuffer,
I2C address, text cursor, inversion flag, initialized flag. -/
structure DisplayState where
  buffer : List Nat
  i2cAddress : Nat
  cursorX : Nat
  cursorY : Nat
  inverted : Bool
  initFlag : Bool
deriving DecidableEq, Repr

/-- A freshly constructed display (ssd1306.cpp lines 11-31): all-zero
buffer, cursor (0,0), not inverted, not initialized. -/
def mkDisplay (addr : Nat) : DisplayState :=
  { buffer := List.replicate 1024 0
    i2cAddress := addr
    cursorX := 0
    cursorY := 0
    inverted := false
    initFlag := false }

/-- Payload of `ssd1306::writeCommand` (ssd1306.cpp lines 33-49):
control byte 0x00 followed by the single command byte. -/
def commandTxn (addr cmd : Nat) : Txn :=
  { addr := addr, flag := 0x00, payload := [0x00, cmd] }

/-- `ssd1306::writeCommands` (ssd1306.cpp lines 51-67): sends each command
as its own transaction, stopping after the first failing one. The
transport oracle `tr` tells whether the n-th transaction of the modelled
run succeeds. Returns overall success, next transaction counter value and
the transactions attempted. -/
def writeCommandsGo (addr : Nat) (tr : Nat → Bool) (n : Nat) :
    List Nat → Bool × Nat × List Txn
  | [] => (true, n, [])
  | c :: rest =>
    if tr n then
      let (b, n', t) := writeCommandsGo addr tr (n + 1) rest
      (b, n', commandTxn addr c :: t)
    else (false, n + 1, [commandTxn addr c])

/-- Payload of `ssd1306::writeData` (ssd1306.cpp lines 69-93): control
byte 0x40 followed by the whole data block, sent as one transaction. -/
def dataTxn (addr : Nat) (data : List Nat) : Txn :=
  { addr := addr, flag := 0x00, payload := 0x40 :: data }

/-- The 128-byte slice of the framebuffer for one page
(`&m_buffer[page * SSD1306_WIDTH]`, 128 bytes). -/
def pageSlice (buf : List Nat) (page : Nat) : List Nat :=
  (buf.drop (page * 128)).take 128

/-- The four transactions `ssd1306::updateScreen` issues for one page:
set-page-address `0xB0 | page`, set-lower-column `0x00`, set-higher-column
`0x10`, then the 128-byte data block. -/
def pageTxns (addr : Nat) (buf : List Nat) (page : Nat) : List Txn :=
  [commandTxn addr (Nat.lor 0xB0 page),
   commandTxn addr 0x00,
   commandTxn addr 0x10,
   dataTxn addr (pageSlice buf page)]

/-- Page loop of `ssd1306::updateScreen` (ssd1306.cpp lines 277-291).
The results of the three `writeCommand` calls are ignored; only a failed
`writeData` aborts the loop, reporting the failing page. Returns the
failing page (if any) and the transactions attempted. -/
def updateScreenPages (addr : Nat) (buf : List Nat) (tr : Nat → Bool) (n : Nat) :
    List Nat → Option Nat × List Txn
  | [] => (none, [])
  | page :: rest =>
    let txns := pageTxns addr buf page
    if tr (n + 3) then
      let (r, t) := updateScreenPages addr buf tr (n + 4) rest
      (r, txns ++ t)
    else (some page, txns)

/-- `ssd1306::updateScreen` (ssd1306.cpp lines 272-298): no-op before
initialization, otherwise the page loop over pages 0..7. The display
state itself is never modified. -/
def updateScreen (d : DisplayState) (tr : Nat → Bool) : Option Nat × List Txn :=
  if d.initFlag = false then (none, [])
  else updateScreenPages d.i2cAddress d.buffer tr 0 (List.range 8)

/-- `ssd1306::displayOn` (ssd1306.cpp lines 203-214). -/
def displayOn (d : DisplayState) (tr : Nat → Bool) : DisplayState × List Txn :=
  if d.initFlag = false then (d, [])
  else (d, (writeCommandsGo d.i2cAddress tr 0 [0x8D, 0x14, 0xAF]).2.2)

/-- `ssd1306::displayOff` (ssd1306.cpp lines 216-225). -/
def displayOff (d : DisplayState) (tr : Nat → Bool) : DisplayState × List Txn :=
  if d.initFlag = false then (d, [])
  else (d, (writeCommandsGo d.i2cAddress tr 0 [0xAE]).2.2)

/-- `ssd1306::setContrast` (ssd1306.cpp lines 227-237). -/
def setContrast (d : DisplayState) (tr : Nat → Bool) (contrast : Nat) :
    DisplayState × List Txn :=
  if d.initFlag = false then (d, [])
  else (d, (writeCommandsGo d.i2cAddress tr 0 [0x81, contrast]).2.2)

/-- `ssd1306::toggleInvert` (ssd1306.cpp lines 247-260): complements every
framebuffer byte, issues the hardware invert/normal command (its success
is ignored) and flips the inversion flag. -/
def toggleInvert (d : DisplayState) (tr : Nat → Bool) : DisplayState × List Txn :=
  if d.initFlag = false then (d, [])
  else
    let buf := d.buffer.map (fun b => Nat.xor b 255)
    let cmd := if d.inverted then 0xA6 else 0xA7
    ({ d with buffer := buf, inverted := !d.inverted },
     [commandTxn d.i2cAddress cmd])

/-- `ssd1306::invertDisplay` (ssd1306.cpp lines 239-245). -/
def invertDisplay (d : DisplayState) (tr : Nat → Bool) (invert : Bool) :
    DisplayState × List Txn :=
  if d.initFlag = false then (d, [])
  else if invert ≠ d.inverted then toggleInvert d tr
  else (d, [])

/-- `ssd1306::fill` (ssd1306.cpp lines 262-266): overwrite the whole
1024-byte framebuffer with 0xFF (WHITE) or 0x00 (BLACK). -/
def fill (d : DisplayState) (color : COLOR) : DisplayState :=
  let pattern := if color = COLOR.WHITE then 0xFF else 0x00
  { d with buffer := List.replicate 1024 pattern }

/-- `ssd1306::clear` (ssd1306.cpp lines 268-270). -/
def clear (d : DisplayState) : DisplayState :=
  fill d COLOR.BLACK

/-- `ssd1306::drawPixel` (ssd1306.cpp lines 308-324): out-of-bounds
coordinates are ignored; otherwise bit `1 << (y % 8)` of byte
`x + (y / 8) * 128` is set (WHITE) or cleared (BLACK). The cleared mask
`~bitMask` on a `uint8_t` is `255 - bitMask`. -/
def drawPixel (d : DisplayState) (x y : Nat) (color : COLOR) : DisplayState :=
  if x ≥ 128 ∨ y ≥ 64 then d
  else
    let byteIndex := x + (y / 8) * 128
    let bitMask := Nat.shiftLeft 1 (y % 8)
    let old := d.buffer.getD byteIndex 0
    if color = COLOR.WHITE then
      { d with buffer := d.buffer.set byteIndex (Nat.lor old bitMask) }
    else
      { d with buffer := d.buffer.set byteIndex (Nat.land old (255 - bitMask)) }

/-- Conversion of an `int` value to `uint16_t` (mod 2^16). -/
def u16 (z : Int) : Nat :=
  (z % 65536).toNat

/-- Loop of `ssd1306::drawLine` (ssd1306.cpp lines 402-416), Bresenham
with halved initial error. Coordinates are `uint16_t`, the step and error
variables are signed; fuel bounds the iteration count (the C loop
terminates after at most `dx + dy + 1` iterations). -/
def drawLineGo (c : COLOR) (x1 y1 : Nat) (dx dy sx sy : Int) :
    Nat → DisplayState → Nat → Nat → Int → DisplayState
  | 0, d, _, _, _ => d
  | fuel + 1, d, x0, y0, err =>
    let d := drawPixel d x0 y0 c
    if x0 = x1 ∧ y0 = y1 then d
    else
      let e2 := err
      let err' := if e2 > -dx then err - dy else err
      let x0' := if e2 > -dx then u16 ((x0 : Int) + sx) else x0
      let err'' := if e2 < dy then err' + dx else err'
      let y0' := if e2 < dy then u16 ((y0 : Int) + sy) else y0
      drawLineGo c x1 y1 dx dy sx sy fuel d x0' y0' err''

/-- `ssd1306::drawLine` (ssd1306.cpp lines 393-417): set-up of the
Bresenham parameters. `(dx > dy ? dx : -dy) / 2` uses C truncating
division, `Int.div`. -/
def drawLine (d : DisplayState) (x0 y0 x1 y1 : Nat) (c : COLOR) : DisplayState :=
  let dx : Int := ((x1 : Int) - (x0 : Int)).natAbs
  let dy : Int := ((y1 : Int) - (y0 : Int)).natAbs
  let sx : Int := if x0 < x1 then 1 else -1
  let sy : Int := if y0 < y1 then 1 else -1
  let err : Int := Int.tdiv (if dx > dy then dx else -dy) 2
  drawLineGo c x1 y1 dx dy sx sy (dx.natAbs + dy.natAbs + 1) d x0 y0 err

/-- Modelled from the spec: `FTDevice::scanI2CBus` is declared in
src/cxx-src/ft4222.hpp (lines 264-266) and called from
src/cxx-src/i2cscanner.cpp, but its definition is not under src/.
Following §4.1 of the spec: "probes every address in range with a
zero-payload transaction and records addresses that acknowledge; returns
the set of responding 7-bit addresses in ascending scan order", with the
open/I2C-mode preconditions the header documents. `bus a = true` means
address `a` acknowledges the probe. The second component is the list of
addresses probed, in probe order. -/
def scanI2CBus (s : FTState) (bus : Nat → Bool) (startAddress endAddress flag : Nat) :
    Except FtErr (List Nat) × List Nat :=
  if isOpen s = false then (Except.error FtErr.notOpen, [])
  else if s.currentMode ≠ Mode.I2C_Master then (Except.error FtErr.wrongMode, [])
  else
    let probed := List.range' startAddress (endAddress + 1 - startAddress)
    (Except.ok (probed.filter bus), probed)

/-- An operation outcome that rejected on a precondition: a not-open or
wrong-mode error, no hardware call issued, device state unchanged. -/
def preconditionReject {α : Type} (r : OpRes α) (s : FTState) : Prop :=
  (r.1 = Except.error FtErr.notOpen ∨ r.1 = Except.error FtErr.wrongMode) ∧
  r.2.1 = [] ∧ r.2.2 = s

/-- A closed, never-opened device state. -/
def sClosed : FTState :=
  { handleOpen := false, isFt4222 := false, currentMode := Mode.Unknown
    clockRate := ClockRate.SYS_CLK_60, openedIndex := 0 }

/-- An open device in I2C master mode. -/
def sI2C : FTState :=
  { handleOpen := true, isFt4222 := true, currentMode := Mode.I2C_Master
    clockRate := ClockRate.SYS_CLK_60, openedIndex := 0 }

/-- An open device in SPI master mode. -/
def sSPI : FTState :=
  { handleOpen := true, isFt4222 := true, currentMode := Mode.SPI_Master
    clockRate := ClockRate.SYS_CLK_24, openedIndex := 0 }

/-- A display whose `init()` has completed. -/
def dInit : DisplayState :=
  { mkDisplay 0x3C with initFlag := true }

/-- A freshly constructed, uninitialized display. -/
def dRaw : DisplayState :=
  mkDisplay 0x3C

/-- Coordinate trace of the drawLineGo loop: the list of (x, y) pairs it
plots, in order. Proof device for reasoning about the buffer drawLineGo
produces; it mirrors the control flow of drawLineGo exactly. -/
def lineTrace (x1 y1 : Nat) (dx dy sx sy : Int) :
    Nat → Nat → Nat → Int → List (Nat × Nat)
  | 0, _, _, _ => []
  | fuel + 1, x0, y0, err =>
    (x0, y0) ::
      (if x0 = x1 ∧ y0 = y1 then []
       else
        let e2 := err
        let err' := if e2 > -dx then err - dy else err
        let x0' := if e2 > -dx then u16 ((x0 : Int) + sx) else x0
        let err'' := if e2 < dy then err' + dx else err'
        let y0' := if e2 < dy then u16 ((y0 : Int) + sy) else y0
        lineTrace x1 y1 dx dy sx sy fuel x0' y0' err'')

/-- The byte update drawPixel applies at the addressed framebuffer byte:
set the mask bit (WHITE) or clear it (BLACK). -/
def pixUpd (c : COLOR) (k : Nat) (v : Nat) : Nat :=
  if c = COLOR.WHITE then Nat.lor v (Nat.shiftLeft 1 k)
  else Nat.land v (255 - Nat.shiftLeft 1 k)

/-- C1: calling any I2C operation (i2cMasterWrite, i2cMasterRead,
i2cMasterGetStatus, i2cMasterResetBus) when the device is not open or not
in I2C_Master mode, or any SPI operation (spiMasterSingleRead,
spiMasterSingleWrite, spiMasterSingleReadWrite) when the device is not
open or not in SPI_Master mode, yields a precondition error with no
hardware call issued and the device state unchanged. -/
theorem C1_precondition_gate (s : FTState) (addr flag n : Nat) (data : List Nat)
    (endTx : Bool) (hw1 : I2CWriteResp) (hw2 : I2CReadResp) (hw3 : I2CStatusResp)
    (st4 : Nat) (hw5 : SPIReadResp) (hw6 : SPIWriteResp) (hw7 : SPIReadResp) :
    (¬ (isOpen s = true ∧ s.currentMode = Mode.I2C_Master) →
      preconditionReject (i2cMasterWrite s addr data flag hw1) s ∧
      preconditionReject (i2cMasterRead s addr n flag hw2) s ∧
      preconditionReject (i2cMasterGetStatus s hw3) s ∧
      preconditionReject (i2cMasterResetBus s st4) s) ∧
    (¬ (isOpen s = true ∧ s.currentMode = Mode.SPI_Master) →
      preconditionReject (spiMasterSingleRead s n endTx hw5) s ∧
      preconditionReject (spiMasterSingleWrite s data endTx hw6) s ∧
      preconditionReject (spiMasterSingleReadWrite s data endTx hw7) s) := by
  constructor
  · intro h
    by_cases ho : isOpen s = true
    · have hm : s.currentMode ≠ Mode.I2C_Master := fun hm => h ⟨ho, hm⟩
      refine ⟨?_, ?_, ?_, ?_⟩ <;>
        simp [i2cMasterWrite, i2cMasterRead, i2cMasterGetStatus, i2cMasterResetBus,
          ho, hm, preconditionReject]
    · have ho' : isOpen s = false := by simpa using ho
      refine ⟨?_, ?_, ?_, ?_⟩ <;>
        simp [i2cMasterWrite, i2cMasterRead, i2cMasterGetStatus, i2cMasterResetBus,
          ho', preconditionReject]
  · intro h
    by_cases ho : isOpen s = true
    · have hm : s.currentMode ≠ Mode.SPI_Master := fun hm => h ⟨ho, hm⟩
      refine ⟨?_, ?_, ?_⟩ <;>
        simp [spiMasterSingleRead, spiMasterSingleWrite, spiMasterSingleReadWrite,
          ho, hm, preconditionReject]
    · have ho' : isOpen s = false := by simpa using ho
      refine ⟨?_, ?_, ?_⟩ <;>
        simp [spiMasterSingleRead, spiMasterSingleWrite, spiMasterSingleReadWrite,
          ho', preconditionReject]

/-- Witness for C1: on a concrete closed device the I2C write, and on a
concrete I2C-mode device the SPI write, are rejected on precondition. -/
theorem C1_precondition_gate_witness :
    preconditionReject (i2cMasterWrite sClosed 0x3C [1, 2] 0x02 ⟨0, 2⟩) sClosed ∧
    preconditionReject (spiMasterSingleWrite sI2C [1, 2] true ⟨0, 2⟩) sI2C := by
  refine ⟨?_, ?_⟩
  · exact ((C1_precondition_gate sClosed 0x3C 0x02 0 [1, 2] true ⟨0, 2⟩ ⟨0, []⟩ ⟨0, 0⟩ 0
      ⟨0, []⟩ ⟨0, 2⟩ ⟨0, []⟩).1 (by decide)).1
  · exact ((C1_precondition_gate sI2C 0x3C 0x02 0 [1, 2] true ⟨0, 2⟩ ⟨0, []⟩ ⟨0, 0⟩ 0
      ⟨0, []⟩ ⟨0, 2⟩ ⟨0, []⟩).2 (by decide)).2.1

/-- C3: on an open I2C-mode device, a non-empty write whose native call
succeeds but reports fewer bytes than the payload length raises the
incomplete-transfer error (after the single native write call), and an
empty payload returns successfully with no hardware transaction. -/
theorem C3_write_incomplete (s : FTState) (addr flag : Nat) (data : List Nat)
    (hw : I2CWriteResp) (ho : isOpen s = true) (hm : s.currentMode = Mode.I2C_Master) :
    (data ≠ [] → hw.status = 0 → hw.bytesWritten < data.length →
      i2cMasterWrite s addr data flag hw =
        (Except.error (FtErr.incomplete hw.bytesWritten data.length),
         [HwCall.i2cWriteEx addr flag data], s)) ∧
    i2cMasterWrite s addr [] flag hw = (Except.ok (), [], s) := by
  constructor
  · intro hne hst hlt
    simp [i2cMasterWrite, ho, hm, hne, hst, Nat.ne_of_lt hlt]
  · simp [i2cMasterWrite, ho, hm]

/-- Witness for C3 at a concrete state, payload and short native write. -/
theorem C3_write_incomplete_witness :
    i2cMasterWrite sI2C 0x3C [7, 8, 9] 0x02 ⟨0, 2⟩ =
      (Except.error (FtErr.incomplete 2 3), [HwCall.i2cWriteEx 0x3C 0x02 [7, 8, 9]], sI2C) ∧
    i2cMasterWrite sI2C 0x3C [] 0x02 ⟨0, 2⟩ = (Except.ok (), [], sI2C) := by
  have h := C3_write_incomplete sI2C 0x3C 0x02 [7, 8, 9] ⟨0, 2⟩ (by decide) (by decide)
  exact ⟨h.1 (by decide) (by decide) (by decide), h.2⟩

/-- C4: on an open I2C-mode device, a read of `n > 0` bytes whose native
call succeeds delivering `k ≤ n` bytes returns exactly the delivered
buffer (length `k`) with no error, and a zero-byte read request returns
an empty buffer with no hardware transaction. -/
theorem C4_short_read (s : FTState) (addr n flag : Nat) (hw : I2CReadResp)
    (ho : isOpen s = true) (hm : s.currentMode = Mode.I2C_Master)
    (hst : hw.status = 0) (hk : hw.delivered.length ≤ n) :
    (n ≠ 0 → i2cMasterRead s addr n flag hw =
      (Except.ok hw.delivered, [HwCall.i2cReadEx addr flag n], s)) ∧
    i2cMasterRead s addr 0 flag hw = (Except.ok [], [], s) := by
  constructor
  · intro hn
    have hbuf : (hw.delivered ++ List.replicate (n - hw.delivered.length) 0).take n
        = hw.delivered ++ List.replicate (n - hw.delivered.length) 0 := by
      apply List.take_of_length_le
      simp [List.length_append, List.length_replicate]
      omega
    by_cases hkn : hw.delivered.length = n
    · simp [i2cMasterRead, ho, hm, hn, hst, hkn, hbuf]
    · have htk : (hw.delivered ++ List.replicate (n - hw.delivered.length) 0).take
          hw.delivered.length = hw.delivered :=
        List.take_left' rfl
      simp [i2cMasterRead, ho, hm, hn, hst, hkn, hbuf, htk]
  · simp [i2cMasterRead, ho, hm]

/-- Witness for C4: reading 4 bytes while the hardware delivers 2. -/
theorem C4_short_read_witness :
    i2cMasterRead sI2C 0x50 4 0x02 ⟨0, [5, 6]⟩ =
      (Except.ok [5, 6], [HwCall.i2cReadEx 0x50 0x02 4], sI2C) ∧
    i2cMasterRead sI2C 0x50 0 0x02 ⟨0, [5, 6]⟩ = (Except.ok [], [], sI2C) := by
  have h := C4_short_read sI2C 0x50 4 0x02 ⟨0, [5, 6]⟩ (by decide) (by decide)
    (by decide) (by decide)
  exact ⟨h.1 (by decide), h.2⟩

/-- C7: on an open device, resetChip issues exactly the chip-level soft
reset and leaves the tracked mode, the clock-rate setting and the open
state unchanged. -/
theorem C7_resetChip_state (s : FTState) (st : Nat) (ho : isOpen s = true) :
    (resetChip s st).2.1 = [HwCall.chipReset] ∧
    getDeviceMode (resetChip s st).2.2 = getDeviceMode s ∧
    getClockRate (resetChip s st).2.2 = getClockRate s ∧
    isOpen (resetChip s st).2.2 = isOpen s := by
  by_cases h : st = 0 <;> simp [resetChip, ho, h]

/-- Witness for C7 on a concrete open I2C-mode device. -/
theorem C7_resetChip_state_witness :
    (resetChip sI2C 0).2.1 = [HwCall.chipReset] ∧
    getDeviceMode (resetChip sI2C 0).2.2 = getDeviceMode sI2C ∧
    getClockRate (resetChip sI2C 0).2.2 = getClockRate sI2C ∧
    isOpen (resetChip sI2C 0).2.2 = isOpen sI2C :=
  C7_resetChip_state sI2C 0 (by decide)

/-- The claim that both open paths reject a non-FT4222 device is false:
`openBySerial` performs no chip-family check. With a successful native
open of a device whose type (3) is outside the FT4222H family, it reports
success and leaves the device open. -/
theorem C5_counterexample :
    isFt4222Type 3 = false ∧
    (openBySerial sClosed "A" ⟨0, 0, 3, 0⟩).1 = Except.ok () ∧
    isOpen (openBySerial sClosed "A" ⟨0, 0, 3, 0⟩).2.2 = true :=
  ⟨rfl, rfl, rfl⟩

/-- C5 (amended): `open(index)` rejects a natively opened device outside
the FT4222H family with the wrong-device error, issuing the native close
after the open and info calls and leaving the device not open, while
`openBySerial` performs no chip-family check at all: whenever the native
open succeeds it reports success and leaves the device open. -/
theorem C5_wrong_device (s : FTState) (index : Nat) (serial : String) (hw : OpenResp)
    (hno : isOpen s = false) (hf : s.isFt4222 = false) (hopen : hw.openStatus = 0) :
    (hw.devInfoStatus = 0 → isFt4222Type hw.deviceType = false →
      openDev s index hw =
        (Except.error FtErr.wrongDevice,
         [HwCall.ftOpen index, HwCall.ftGetDeviceInfo, HwCall.ftClose],
         { s with handleOpen := true }) ∧
      isOpen (openDev s index hw).2.2 = false) ∧
    (openBySerial s serial hw).1 = Except.ok () ∧
    isOpen (openBySerial s serial hw).2.2 = true := by
  refine ⟨fun hinfo htype => ?_, ?_⟩
  · have h1 : openDev s index hw =
        (Except.error FtErr.wrongDevice,
         [HwCall.ftOpen index, HwCall.ftGetDeviceInfo, HwCall.ftClose],
         { s with handleOpen := true }) := by
      simp [openDev, hno, hopen, hinfo, htype]
    exact ⟨h1, by simp [h1, isOpen, hf]⟩
  · constructor <;> simp [openBySerial, hno, hopen, hf, isOpen]

/-- Witness for the amended C5 at a concrete closed state and a concrete
non-FT4222 native response. -/
theorem C5_wrong_device_witness :
    (openDev sClosed 2 ⟨0, 0, 3, 0⟩ =
      (Except.error FtErr.wrongDevice,
       [HwCall.ftOpen 2, HwCall.ftGetDeviceInfo, HwCall.ftClose],
       { sClosed with handleOpen := true }) ∧
     isOpen (openDev sClosed 2 ⟨0, 0, 3, 0⟩).2.2 = false) ∧
    (openBySerial sClosed "A" ⟨0, 0, 3, 0⟩).1 = Except.ok () ∧
    isOpen (openBySerial sClosed "A" ⟨0, 0, 3, 0⟩).2.2 = true := by
  have h := C5_wrong_device sClosed 2 "A" ⟨0, 0, 3, 0⟩ (by decide) (by decide) (by decide)
  exact ⟨h.1 (by decide) (by decide), h.2⟩

set_option maxRecDepth 10000 in
/-- Bit behaviour of the framebuffer byte updates of `drawPixel`:
OR-ing in `1 << k` sets bit k and preserves the others, AND-ing with
`255 - (1 << k)` (the `uint8_t` complement of the mask) clears bit k and
preserves the others, for bytes and bit positions in range. -/
theorem byteBit_spec : ∀ b < 256, ∀ k < 8, ∀ j < 8,
    (Nat.testBit (Nat.lor b (Nat.shiftLeft 1 k)) j = ((j == k) || Nat.testBit b j)) ∧
    (Nat.testBit (Nat.land b (255 - Nat.shiftLeft 1 k)) j = (!(j == k) && Nat.testBit b j)) := by
  decide

/-- `getD` of a list updated at the same in-range position. -/
theorem getD_set_self' (l : List Nat) (i v : Nat) (h : i < l.length) :
    (l.set i v).getD i 0 = v := by
  simp [List.getD_eq_getElem?_getD, List.getElem?_set_self h]

/-- `getD` of a list updated at a different position. -/
theorem getD_set_ne' (l : List Nat) (i j v : Nat) (h : i ≠ j) :
    (l.set i v).getD j 0 = l.getD j 0 := by
  simp [List.getD_eq_getElem?_getD, List.getElem?_set_ne h]

/-- An in-range `getD` of a list of bytes is a byte. -/
theorem getD_lt_256 (l : List Nat) (i : Nat) (hb : ∀ b ∈ l, b < 256) (hi : i < l.length) :
    l.getD i 0 < 256 := by
  have h1 : l.getD i 0 = l[i] := by
    simp [List.getD_eq_getElem?_getD, List.getElem?_eq_getElem hi]
  rw [h1]
  exact hb _ (List.getElem_mem hi)

/-- C6: for in-bounds (x,y), drawPixel WHITE sets and drawPixel BLACK
clears exactly bit `y % 8` of framebuffer byte `x + (y / 8) * 128`,
leaving every other framebuffer bit unchanged; out-of-bounds coordinates
leave the display entirely unchanged. -/
theorem C6_drawPixel (d : DisplayState) (x y : Nat) (c : COLOR)
    (hx : x < 128) (hy : y < 64) (hlen : d.buffer.length = 1024)
    (hbytes : ∀ b ∈ d.buffer, b < 256) :
    Nat.testBit ((drawPixel d x y COLOR.WHITE).buffer.getD (x + y / 8 * 128) 0) (y % 8) = true ∧
    Nat.testBit ((drawPixel d x y COLOR.BLACK).buffer.getD (x + y / 8 * 128) 0) (y % 8) = false ∧
    (∀ i, i < 1024 → ∀ j, j < 8 → (i ≠ x + y / 8 * 128 ∨ j ≠ y % 8) →
      Nat.testBit ((drawPixel d x y COLOR.WHITE).buffer.getD i 0) j
        = Nat.testBit (d.buffer.getD i 0) j ∧
      Nat.testBit ((drawPixel d x y COLOR.BLACK).buffer.getD i 0) j
        = Nat.testBit (d.buffer.getD i 0) j) ∧
    (∀ x' y', 128 ≤ x' ∨ 64 ≤ y' → drawPixel d x' y' c = d) := by
  have hnb : ¬ (x ≥ 128 ∨ y ≥ 64) := by omega
  have hidx : x + y / 8 * 128 < 1024 := by omega
  have hkk : y % 8 < 8 := by omega
  have hold : d.buffer.getD (x + y / 8 * 128) 0 < 256 :=
    getD_lt_256 _ _ hbytes (by omega)
  have hW : (drawPixel d x y COLOR.WHITE).buffer
      = d.buffer.set (x + y / 8 * 128)
          (Nat.lor (d.buffer.getD (x + y / 8 * 128) 0) (Nat.shiftLeft 1 (y % 8))) := by
    simp [drawPixel, hnb]
  have hB : (drawPixel d x y COLOR.BLACK).buffer
      = d.buffer.set (x + y / 8 * 128)
          (Nat.land (d.buffer.getD (x + y / 8 * 128) 0) (255 - Nat.shiftLeft 1 (y % 8))) := by
    simp [drawPixel, hnb]
  refine ⟨?_, ?_, ?_, ?_⟩
  · rw [hW, getD_set_self' _ _ _ (by omega), (byteBit_spec _ hold _ hkk _ hkk).1]
    simp
  · rw [hB, getD_set_self' _ _ _ (by omega), (byteBit_spec _ hold _ hkk _ hkk).2]
    simp
  · intro i hi j hj hne
    by_cases hieq : i = x + y / 8 * 128
    · subst hieq
      have hjk : j ≠ y % 8 := by
        rcases hne with h | h
        · exact absurd rfl h
        · exact h
      constructor
      · rw [hW, getD_set_self' _ _ _ (by omega), (byteBit_spec _ hold _ hkk _ hj).1]
        simp [hjk]
      · rw [hB, getD_set_self' _ _ _ (by omega), (byteBit_spec _ hold _ hkk _ hj).2]
        simp [hjk]

    · constructor
      · rw [hW, getD_set_ne' _ _ _ _ (fun h => hieq h.symm)]
      · rw [hB, getD_set_ne' _ _ _ _ (fun h => hieq h.symm)]
  · intro x' y' h
    have h' : x' ≥ 128 ∨ y' ≥ 64 := h
    simp [drawPixel, h']

set_option maxRecDepth 10000 in
/-- Witness for C6 on a fresh display at (5, 9). -/
theorem C6_drawPixel_witness :
    Nat.testBit ((drawPixel dRaw 5 9 COLOR.WHITE).buffer.getD (5 + 9 / 8 * 128) 0) (9 % 8) = true ∧
    Nat.testBit ((drawPixel dRaw 5 9 COLOR.BLACK).buffer.getD (5 + 9 / 8 * 128) 0) (9 % 8) = false ∧
    (∀ i, i < 1024 → ∀ j, j < 8 → (i ≠ 5 + 9 / 8 * 128 ∨ j ≠ 9 % 8) →
      Nat.testBit ((drawPixel dRaw 5 9 COLOR.WHITE).buffer.getD i 0) j
        = Nat.testBit (dRaw.buffer.getD i 0) j ∧
      Nat.testBit ((drawPixel dRaw 5 9 COLOR.BLACK).buffer.getD i 0) j
        = Nat.testBit (dRaw.buffer.getD i 0) j) ∧
    (∀ x' y', 128 ≤ x' ∨ 64 ≤ y' → drawPixel dRaw x' y' COLOR.WHITE = dRaw) :=
  C6_drawPixel dRaw 5 9 COLOR.WHITE (by decide) (by decide)
    (by decide)
    (by
      intro b hb
      have hb0 : b = 0 := List.eq_of_mem_replicate hb
      omega)

/-- When every data transaction succeeds, the page loop of updateScreen
emits the four transactions of every page in order and reports no
failure. -/
theorem updateScreenPages_success (addr : Nat) (buf : List Nat) (tr : Nat → Bool) :
    ∀ ps n, (∀ i, i < ps.length → tr (n + 4 * i + 3) = true) →
      updateScreenPages addr buf tr n ps = (none, ps.flatMap (pageTxns addr buf)) := by
  intro ps
  induction ps with
  | nil => intro n h; simp [updateScreenPages]
  | cons p rest ih =>
    intro n h
    have h0 : tr (n + 3) = true := by simpa using h 0 (by simp)
    have hrest : ∀ i, i < rest.length → tr (n + 4 + 4 * i + 3) = true := by
      intro i hi
      have e : n + 4 * (i + 1) + 3 = n + 4 + 4 * i + 3 := by ring
      have := h (i + 1) (by simp; omega)
      rw [e] at this
      exact this
    simp [updateScreenPages, h0, ih (n + 4) hrest]

/-- When the data transaction of the j-th page is the first failing one,
the page loop stops there: it emits the transactions of pages 0..j only
and reports the j-th page. -/
theorem updateScreenPages_fail (addr : Nat) (buf : List Nat) (tr : Nat → Bool) :
    ∀ ps n j, j < ps.length → (∀ i, i < j → tr (n + 4 * i + 3) = true) →
      tr (n + 4 * j + 3) = false →
      updateScreenPages addr buf tr n ps =
        (some (ps.getD j 0), (ps.take (j + 1)).flatMap (pageTxns addr buf)) := by
  intro ps
  induction ps with
  | nil => intro n j hj _ _; simp at hj
  | cons p rest ih =>
    intro n j hj hbef hfail
    cases j with
    | zero =>
      have h0 : tr (n + 3) = false := by simpa using hfail
      simp [updateScreenPages, h0]
    | succ j' =>
      have h0 : tr (n + 3) = true := by simpa using hbef 0 (by omega)
      have hbef' : ∀ i, i < j' → tr (n + 4 + 4 * i + 3) = true := by
        intro i hi
        have e : n + 4 * (i + 1) + 3 = n + 4 + 4 * i + 3 := by ring
        have := hbef (i + 1) (by omega)
        rw [e] at this
        exact this
      have hfail' : tr (n + 4 + 4 * j' + 3) = false := by
        have e : n + 4 * (j' + 1) + 3 = n + 4 + 4 * j' + 3 := by ring
        rw [e] at hfail
        exact hfail
      simp [updateScreenPages, h0,
        ih (n + 4) j' (by simpa using hj) hbef' hfail']

/-- C2: on an initialized display with a 1024-byte framebuffer,
updateScreen with an always-succeeding transport issues the four
transactions of every page 0..7 in order (three commands then one
128-byte data block each) and reports no failure; with a transport whose
first failing data transaction is that of page p < 8, exactly pages 0..p
are sent and page p is reported as failing. -/
theorem C2_updateScreen (d : DisplayState) (tr trf : Nat → Bool) (p : Nat)
    (hinit : d.initFlag = true) (hlen : d.buffer.length = 1024)
    (hall : ∀ i, i < 8 → tr (4 * i + 3) = true)
    (hp : p < 8) (hbef : ∀ q, q < p → trf (4 * q + 3) = true)
    (hfail : trf (4 * p + 3) = false) :
    updateScreen d tr = (none, (List.range 8).flatMap (pageTxns d.i2cAddress d.buffer)) ∧
    (∀ q, q < 8 → (pageSlice d.buffer q).length = 128) ∧
    updateScreen d trf
      = (some p, (List.range (p + 1)).flatMap (pageTxns d.i2cAddress d.buffer)) := by
  refine ⟨?_, ?_, ?_⟩
  · rw [updateScreen]
    simp only [hinit]
    rw [updateScreenPages_success d.i2cAddress d.buffer tr (List.range 8) 0
      (by intro i hi; simpa using hall i (by simpa using hi))]
    simp
  · intro q hq
    simp only [pageSlice, List.length_take, List.length_drop, hlen]
    omega
  · rw [updateScreen]
    simp only [hinit]
    rw [updateScreenPages_fail d.i2cAddress d.buffer trf (List.range 8) 0 p
      (by simpa using hp)
      (by intro i hi; simpa using hbef i hi)
      (by simpa using hfail)]
    have hgd : (List.range 8).getD p 0 = p := by
      simp [List.getD_eq_getElem?_getD, List.getElem?_range (by omega : p < 8)]
    have htk : (List.range 8).take (p + 1) = List.range (p + 1) := by
      rw [List.take_range]
      congr 1
      omega
    rw [hgd, htk]
    simp

set_option maxRecDepth 10000 in
/-- Witness for C2: all-success transport, and a transport failing first
at transaction 15, the data transaction of page 3 (pages 0-2 sent,
pages 4-7 not sent, failure reported at page 3). -/
theorem C2_updateScreen_witness :
    updateScreen dInit (fun _ => true)
      = (none, (List.range 8).flatMap (pageTxns dInit.i2cAddress dInit.buffer)) ∧
    (∀ q, q < 8 → (pageSlice dInit.buffer q).length = 128) ∧
    updateScreen dInit (fun n => !(n == 15))
      = (some 3, (List.range 4).flatMap (pageTxns dInit.i2cAddress dInit.buffer)) :=
  C2_updateScreen dInit (fun _ => true) (fun n => !(n == 15)) 3
    (by decide) (by decide)
    (fun i hi => rfl)
    (by decide)
    (by intro q hq; interval_cases q <;> decide)
    (by decide)

/-- C10: before init() has succeeded, every hardware-touching display
operation returns with no I2C transaction and the display state
(framebuffer, cursor, inversion flag) unchanged, while the buffer-only
operations fill, clear and drawPixel still mutate the in-memory
framebuffer. -/
theorem C10_uninitialized_gate (d : DisplayState) (tr : Nat → Bool)
    (contrast x y : Nat) (inv : Bool) (hinit : d.initFlag = false)
    (hx : x < 128) (hy : y < 64) (hlen : d.buffer.length = 1024)
    (hbytes : ∀ b ∈ d.buffer, b < 256) :
    updateScreen d tr = (none, []) ∧
    displayOn d tr = (d, []) ∧
    displayOff d tr = (d, []) ∧
    setContrast d tr contrast = (d, []) ∧
    toggleInvert d tr = (d, []) ∧
    invertDisplay d tr inv = (d, []) ∧
    (fill d COLOR.WHITE).buffer = List.replicate 1024 0xFF ∧
    (fill d COLOR.BLACK).buffer = List.replicate 1024 0x00 ∧
    clear d = fill d COLOR.BLACK ∧
    Nat.testBit ((drawPixel d x y COLOR.WHITE).buffer.getD (x + y / 8 * 128) 0) (y % 8)
      = true := by
  have hnb : ¬ (x ≥ 128 ∨ y ≥ 64) := by omega
  have hkk : y % 8 < 8 := by omega
  have hold : d.buffer.getD (x + y / 8 * 128) 0 < 256 :=
    getD_lt_256 _ _ hbytes (by omega)
  refine ⟨?_, ?_, ?_, ?_, ?_, ?_, ?_, ?_, ?_, ?_⟩
  · simp [updateScreen, hinit]
  · simp [displayOn, hinit]
  · simp [displayOff, hinit]
  · simp [setContrast, hinit]
  · simp [toggleInvert, hinit]
  · simp [invertDisplay, hinit]
  · rfl
  · rfl
  · rfl
  · have hW : (drawPixel d x y COLOR.WHITE).buffer
        = d.buffer.set (x + y / 8 * 128)
            (Nat.lor (d.buffer.getD (x + y / 8 * 128) 0) (Nat.shiftLeft 1 (y % 8))) := by
      simp [drawPixel, hnb]
    rw [hW, getD_set_self' _ _ _ (by omega), (byteBit_spec _ hold _ hkk _ hkk).1]
    simp

set_option maxRecDepth 10000 in
/-- Witness for C10 on a fresh (uninitialized) display. -/
theorem C10_uninitialized_gate_witness :
    updateScreen dRaw (fun _ => true) = (none, []) ∧
    displayOn dRaw (fun _ => true) = (dRaw, []) ∧
    displayOff dRaw (fun _ => true) = (dRaw, []) ∧
    setContrast dRaw (fun _ => true) 128 = (dRaw, []) ∧
    toggleInvert dRaw (fun _ => true) = (dRaw, []) ∧
    invertDisplay dRaw (fun _ => true) true = (dRaw, []) ∧
    (fill dRaw COLOR.WHITE).buffer = List.replicate 1024 0xFF ∧
    (fill dRaw COLOR.BLACK).buffer = List.replicate 1024 0x00 ∧
    clear dRaw = fill dRaw COLOR.BLACK ∧
    Nat.testBit ((drawPixel dRaw 0 0 COLOR.WHITE).buffer.getD (0 + 0 / 8 * 128) 0) (0 % 8)
      = true :=
  C10_uninitialized_gate dRaw (fun _ => true) 128 0 0 true
    (by decide) (by decide) (by decide) (by decide)
    (by
      intro b hb
      have hb0 : b = 0 := List.eq_of_mem_replicate hb
      omega)

/-- C9: on an open I2C-mode device, scanI2CBus probes exactly the
addresses in [startAddress, endAddress] (each with a zero-payload
transaction), and returns exactly the acknowledging addresses, in
ascending order. -/
theorem C9_scanI2CBus (s : FTState) (bus : Nat → Bool)
    (startAddress endAddress flag : Nat)
    (ho : isOpen s = true) (hm : s.currentMode = Mode.I2C_Master) :
    (∀ a, a ∈ (scanI2CBus s bus startAddress endAddress flag).2 ↔
      startAddress ≤ a ∧ a ≤ endAddress) ∧
    (∃ l, (scanI2CBus s bus startAddress endAddress flag).1 = Except.ok l ∧
      (∀ a, a ∈ l ↔ startAddress ≤ a ∧ a ≤ endAddress ∧ bus a = true) ∧
      l.Pairwise (· < ·)) := by
  have hsc : scanI2CBus s bus startAddress endAddress flag
      = (Except.ok ((List.range' startAddress (endAddress + 1 - startAddress)).filter bus),
         List.range' startAddress (endAddress + 1 - startAddress)) := by
    simp [scanI2CBus, ho, hm]
  constructor
  · intro a
    rw [hsc]
    show a ∈ List.range' startAddress (endAddress + 1 - startAddress) ↔ _
    rw [List.mem_range'_1]
    omega
  · refine ⟨(List.range' startAddress (endAddress + 1 - startAddress)).filter bus,
      ?_, ?_, ?_⟩
    · rw [hsc]
    · intro a
      rw [List.mem_filter, List.mem_range'_1]
      constructor
      · rintro ⟨⟨h1, h2⟩, h3⟩
        exact ⟨h1, by omega, h3⟩
      · rintro ⟨h1, h2, h3⟩
        exact ⟨⟨h1, by omega⟩, h3⟩
    · exact List.Pairwise.filter bus
        (List.pairwise_lt_range' startAddress (endAddress + 1 - startAddress) 1
          (by norm_num))

/-- Witness for C9: scanning 0x03..0x77 on a bus acknowledging exactly
addresses 0x3C and 0x50 returns [0x3C, 0x50]. -/
theorem C9_scanI2CBus_witness :
    (∀ a, a ∈ (scanI2CBus sI2C (fun a => a == 0x3C || a == 0x50) 0x03 0x77 0x06).2 ↔
      0x03 ≤ a ∧ a ≤ 0x77) ∧
    (∃ l, (scanI2CBus sI2C (fun a => a == 0x3C || a == 0x50) 0x03 0x77 0x06).1
        = Except.ok l ∧
      (∀ a, a ∈ l ↔ 0x03 ≤ a ∧ a ≤ 0x77 ∧ (a == 0x3C || a == 0x50) = true) ∧
      l.Pairwise (· < ·)) :=
  C9_scanI2CBus sI2C (fun a => a == 0x3C || a == 0x50) 0x03 0x77 0x06
    (by decide) (by decide)

set_option maxRecDepth 10000 in
/-- The concrete scan of the witness's bus yields exactly [0x3C, 0x50]. -/
theorem scan_example_result :
    (scanI2CBus sI2C (fun a => a == 0x3C || a == 0x50) 0x03 0x77 0x06).1
      = Except.ok [0x3C, 0x50] := by
  rfl

set_option maxRecDepth 100000 in
/-- The direction-symmetry claim for drawLine is false in general: from
the same all-zero framebuffer, drawLine(0,0,4,1,WHITE) sets pixel (2,0)
(byte 2 becomes 1) while drawLine(4,1,0,0,WHITE) sets pixel (2,1) (byte 2
becomes 2), so the two pixel sets differ although both endpoint pairs are
within bounds. -/
theorem C8_counterexample :
    (drawLine (mkDisplay 0x3C) 0 0 4 1 COLOR.WHITE).buffer.getD 2 0 = 1 ∧
    (drawLine (mkDisplay 0x3C) 4 1 0 0 COLOR.WHITE).buffer.getD 2 0 = 2 ∧
    (drawLine (mkDisplay 0x3C) 0 0 4 1 COLOR.WHITE).buffer
      ≠ (drawLine (mkDisplay 0x3C) 4 1 0 0 COLOR.WHITE).buffer := by
  refine ⟨rfl, rfl, ?_⟩
  intro h
  have h2 : (drawLine (mkDisplay 0x3C) 0 0 4 1 COLOR.WHITE).buffer.getD 2 0
      = (drawLine (mkDisplay 0x3C) 4 1 0 0 COLOR.WHITE).buffer.getD 2 0 := by
    rw [h]
  rw [show (drawLine (mkDisplay 0x3C) 0 0 4 1 COLOR.WHITE).buffer.getD 2 0 = 1 from rfl,
    show (drawLine (mkDisplay 0x3C) 4 1 0 0 COLOR.WHITE).buffer.getD 2 0 = 2 from rfl] at h2
  exact absurd h2 (by norm_num)

/-- drawLineGo is the fold of drawPixel over its coordinate trace. -/
theorem drawLineGo_foldl (c : COLOR) (x1 y1 : Nat) (dx dy sx sy : Int) :
    ∀ fuel d x0 y0 err,
      drawLineGo c x1 y1 dx dy sx sy fuel d x0 y0 err
        = List.foldl (fun acc p => drawPixel acc p.1 p.2 c) d
            (lineTrace x1 y1 dx dy sx sy fuel x0 y0 err) := by
  intro fuel
  induction fuel with
  | zero => intro d x0 y0 err; rfl
  | succ fuel ih =>
    intro d x0 y0 err
    simp only [drawLineGo, lineTrace]
    by_cases hxy : x0 = x1 ∧ y0 = y1
    · simp [hxy]
    · simp only [if_neg hxy, List.foldl_cons]
      rw [ih]

/-- Two read-modify-write updates of a list commute when the value
updates commute (or target different positions). -/
theorem set_upd_comm (l : List Nat) (i j : Nat) (f g : Nat → Nat)
    (hcomm : ∀ v, f (g v) = g (f v)) :
    ((l.set i (f (l.getD i 0))).set j (g ((l.set i (f (l.getD i 0))).getD j 0)))
      = ((l.set j (g (l.getD j 0))).set i (f ((l.set j (g (l.getD j 0))).getD i 0))) := by
  by_cases hij : i = j
  · subst hij
    by_cases hlen : i < l.length
    · rw [getD_set_self' _ _ _ hlen, getD_set_self' _ _ _ hlen, List.set_set, List.set_set,
        hcomm]
    · have hle : l.length ≤ i := by omega
      simp [List.set_eq_of_length_le hle]
  · rw [getD_set_ne' _ _ _ _ hij, getD_set_ne' _ _ _ _ (fun h => hij h.symm),
      List.set_comm _ _ _ hij]

/-- Out-of-bounds drawPixel is the identity. -/
theorem drawPixel_oob (d : DisplayState) (x y : Nat) (c : COLOR)
    (h : x ≥ 128 ∨ y ≥ 64) : drawPixel d x y c = d := by
  simp [drawPixel, h]

/-- In-bounds drawPixel as a single read-modify-write of the addressed
byte. -/
theorem drawPixel_in_bounds (d : DisplayState) (x y : Nat) (c : COLOR)
    (h : ¬ (x ≥ 128 ∨ y ≥ 64)) :
    drawPixel d x y c = { d with buffer := (d.buffer.set (x + y / 8 * 128)
      (pixUpd c (y % 8) (d.buffer.getD (x + y / 8 * 128) 0))) } := by
  cases c <;> simp [drawPixel, pixUpd, h]

/-- The byte updates of two same-color pixels commute. -/
theorem pixUpd_comm (c : COLOR) (k1 k2 : Nat) (v : Nat) :
    pixUpd c k1 (pixUpd c k2 v) = pixUpd c k2 (pixUpd c k1 v) := by
  cases c with
  | WHITE =>
    simp only [pixUpd, if_pos]
    show v ||| 1 <<< k2 ||| 1 <<< k1 = v ||| 1 <<< k1 ||| 1 <<< k2
    rw [Nat.lor_assoc, Nat.lor_assoc, Nat.lor_comm (1 <<< k2) (1 <<< k1)]
  | BLACK =>
    simp only [pixUpd, if_neg (by simp : ¬ (COLOR.BLACK = COLOR.WHITE))]
    show v &&& (255 - 1 <<< k2) &&& (255 - 1 <<< k1)
        = v &&& (255 - 1 <<< k1) &&& (255 - 1 <<< k2)
    rw [Nat.land_assoc, Nat.land_assoc, Nat.land_comm (255 - 1 <<< k2) (255 - 1 <<< k1)]

/-- Two drawPixel calls of the same color commute. -/
theorem drawPixel_comm (c : COLOR) (d : DisplayState) (x1 y1 x2 y2 : Nat) :
    drawPixel (drawPixel d x1 y1 c) x2 y2 c
      = drawPixel (drawPixel d x2 y2 c) x1 y1 c := by
  by_cases h1 : x1 ≥ 128 ∨ y1 ≥ 64
  · by_cases h2 : x2 ≥ 128 ∨ y2 ≥ 64
    · rw [drawPixel_oob d x1 y1 c h1, drawPixel_oob _ x1 y1 c h1]
    · rw [drawPixel_oob d x1 y1 c h1, drawPixel_oob _ x1 y1 c h1]
  · by_cases h2 : x2 ≥ 128 ∨ y2 ≥ 64
    · rw [drawPixel_oob d x2 y2 c h2, drawPixel_oob _ x2 y2 c h2]
    · obtain ⟨buf, addr, cx, cy, inv, ini⟩ := d
      rw [drawPixel_in_bounds _ x1 y1 c h1, drawPixel_in_bounds _ x2 y2 c h2,
        drawPixel_in_bounds _ x2 y2 c h2, drawPixel_in_bounds _ x1 y1 c h1]
      simp only [DisplayState.mk.injEq, and_true, true_and]
      exact set_upd_comm buf (x1 + y1 / 8 * 128) (x2 + y2 / 8 * 128)
        (pixUpd c (y1 % 8)) (pixUpd c (y2 % 8)) (fun v => pixUpd_comm c _ _ v)

set_option maxRecDepth 100000 in
/-- C8 (amended): Bresenham direction symmetry fails for general
in-bounds endpoint pairs (see the counterexample at (0,0)-(4,1)), but
the spec's concrete instance holds: drawLine(0,0,127,63,WHITE) and
drawLine(127,63,0,0,WHITE) applied to the same fresh framebuffer set
exactly the same pixels (the reverse call plots exactly the reversed
coordinate sequence of the forward call). -/
theorem C8_line_symmetry_amended :
    (drawLine (mkDisplay 0x3C) 0 0 127 63 COLOR.WHITE).buffer
      = (drawLine (mkDisplay 0x3C) 127 63 0 0 COLOR.WHITE).buffer := by
  have e1 : drawLine (mkDisplay 0x3C) 0 0 127 63 COLOR.WHITE
      = drawLineGo COLOR.WHITE 127 63 127 63 1 1 191 (mkDisplay 0x3C) 0 0 63 := by
    rw [drawLine]
    norm_num
    rfl
  have e2 : drawLine (mkDisplay 0x3C) 127 63 0 0 COLOR.WHITE
      = drawLineGo COLOR.WHITE 0 0 127 63 (-1) (-1) 191 (mkDisplay 0x3C) 127 63 63 := by
    rw [drawLine]
    norm_num
    rfl
  have hrev : lineTrace 0 0 127 63 (-1) (-1) 191 127 63 63
      = (lineTrace 127 63 127 63 1 1 191 0 0 63).reverse := by decide
  have hperm : List.Perm (lineTrace 127 63 127 63 1 1 191 0 0 63)
      (lineTrace 0 0 127 63 (-1) (-1) 191 127 63 63) := by
    rw [hrev]
    exact (List.reverse_perm _).symm
  rw [e1, e2, drawLineGo_foldl, drawLineGo_foldl]
  rw [hperm.foldl_eq'
    (fun a _ b _ z => drawPixel_comm COLOR.WHITE z a.1 a.2 b.1 b.2)
    (mkDisplay 0x3C)]
